import Mathlib

/-!
# Verification of the Sports Arena live-scoring backend

Shallow embedding of the match-scoring engine of `src/main.py` /
`src/models.py` (FastAPI + SQLAlchemy).  Each endpoint handler is embedded
as a pure function on a `Match` record: the database lookup/commit and the
websocket transport are stripped away, the state mutation, validation and
response logic are transcribed line by line.  Python `int` fields become
`Int`; nullable columns become `Option`; JSON-text columns holding lists
(`ball_history`, `point_history`, set points) become Lean lists of typed
records, serialisation being invisible to the logic.

The cricket `overs` column is a Python float that always carries a value of
the shape `w.b` with a single decimal digit `b ∈ 0..5`: the code reads the
digit back with `int(round((x - int(x)) * 10))`, which recovers `b` exactly
for every such float, so the column is embedded as the exact pair
`Overs.mk w b`.  The `"ball"` index stored in each ball-history entry is
computed in the source via float truncation (`int(current_overs * 6)`)
whose value depends on binary rounding of the decimal float; no claim
refers to it and it is omitted from the embedded history entry.
-/

/-- Errors raised by the handlers (`HTTPException` in the source, plus the
Python `TypeError` that `end_match` raises when it compares an `int` with
`None`). -/
inductive ApiError where
  | notFound
  | wrongSport
  | notLive
  | invalidState
  | invalidTeam
  | typeError
  deriving DecidableEq

/-- Exact embedding of the cricket overs float `whole.balls`
(one decimal digit, kept in `0..5` by the update logic). -/
structure Overs where
  whole : Nat
  balls : Nat
  deriving DecidableEq

/-- One entry of the cricket `ball_history` JSON list (`ball_entry` in
`update_cricket_score`); the float-derived `"ball"` index is omitted, see
the module comment.  `batsman_out` / `new_batsman` keys are only present
when the delivery is a wicket, embedded as `Option` fields left `none`
otherwise. -/
structure BallEntry where
  runs : Int
  wicket : Bool
  extra_type : Option String
  innings : Int
  total_runs : Int
  batsman_out : Option String := none
  new_batsman : Option String := none
  deriving DecidableEq

/-- One entry of the volleyball `point_history` JSON list:
`{"team": 1|2, "action": "point"}`. -/
structure PointEntry where
  team : Int
  deriving DecidableEq

/-- The `Team` row of `src/models.py` (fields the engine touches). -/
structure Team where
  name : String
  wins : Int := 0
  losses : Int := 0
  matches_played : Int := 0
  points : Int := 0
  total_runs_scored : Int := 0
  total_wickets_taken : Int := 0
  total_raid_points : Int := 0
  total_tackle_points : Int := 0
  total_sets_won : Int := 0
  deriving DecidableEq

/-- The `Match` row of `src/models.py`, with the column defaults of the
source.  `team1_id`/`team2_id` are always assigned at creation and are
embedded as plain `Int`. -/
structure Match where
  sport : String := "cricket"
  team1_id : Int := 0
  team2_id : Int := 0
  status : String := "UPCOMING"
  result : Option String := none
  total_overs : Int := 20
  batting_team_id : Option Int := none
  bowling_team_id : Option Int := none
  total_runs : Int := 0
  wickets : Int := 0
  overs : Overs := ⟨0, 0⟩
  current_innings : Int := 1
  target : Option Int := none
  innings2_runs : Int := 0
  innings2_wickets : Int := 0
  innings2_overs : Overs := ⟨0, 0⟩
  ball_history : List BallEntry := []
  half_duration_minutes : Int := 20
  current_half : Int := 1
  team1_raid_points : Int := 0
  team1_tackle_points : Int := 0
  team1_all_outs : Int := 0
  team1_bonus_points : Int := 0
  team2_raid_points : Int := 0
  team2_tackle_points : Int := 0
  team2_all_outs : Int := 0
  team2_bonus_points : Int := 0
  ttp_points : Int := 0
  total_sets : Int := 3
  current_set : Int := 1
  serve_team_id : Option Int := none
  team1_sets : Int := 0
  team1_current_points : Int := 0
  team1_set_points : List Int := []
  team2_sets : Int := 0
  team2_current_points : Int := 0
  team2_set_points : List Int := []
  point_history : List PointEntry := []
  deriving DecidableEq

/-- `CricketScoreUpdate` request body. -/
structure CricketScoreUpdate where
  run : Int
  is_wicket : Bool := false
  extra_type : Option String := none
  batsman_out : Option String := none
  new_batsman : Option String := none
  deriving DecidableEq

/-- `KabaddiScoreUpdate` request body. -/
structure KabaddiScoreUpdate where
  team_id : Int
  action : String
  points : Int := 1
  deriving DecidableEq

/-- `VolleyballScoreUpdate` request body. -/
structure VolleyballScoreUpdate where
  team_id : Int
  action : String
  deriving DecidableEq

/-- A match with every column at its `src/models.py` default. -/
def defaultMatch : Match := {}

/-- `create_match` (`src/main.py` lines 309-360): the fields the handler
assigns on the new row; everything else keeps its column default.  Team
existence / distinctness / sport checks concern the `Team` table and are
outside the scoring engine. -/
def create_match (sport : String) (team1_id team2_id : Int)
    (total_overs half_duration ttp_points total_sets : Int) : Match :=
  { defaultMatch with
    sport := sport
    team1_id := team1_id
    team2_id := team2_id
    status := "UPCOMING"
    total_overs := total_overs
    batting_team_id := some team1_id
    bowling_team_id := some team2_id
    half_duration_minutes := half_duration
    ttp_points := ttp_points
    total_sets := total_sets
    serve_team_id := some team1_id }

/-- `start_match` (`src/main.py` lines 473-486): after the `NotFound`
lookup the handler unconditionally sets `status = "LIVE"` — there is no
check of the current status. -/
def start_match (m : Match) : Match :=
  { m with status := "LIVE" }

/-- `getattr(match, runs_attr)` under the innings dispatch of
`update_cricket_score` (lines 565-571). -/
def inningsRuns (m : Match) : Int :=
  if m.current_innings = 1 then m.total_runs else m.innings2_runs

/-- `getattr(match, wickets_attr)`. -/
def inningsWickets (m : Match) : Int :=
  if m.current_innings = 1 then m.wickets else m.innings2_wickets

/-- `getattr(match, overs_attr)`. -/
def inningsOvers (m : Match) : Overs :=
  if m.current_innings = 1 then m.overs else m.innings2_overs

/-- `setattr(match, runs_attr, v)`. -/
def setInningsRuns (m : Match) (v : Int) : Match :=
  if m.current_innings = 1 then { m with total_runs := v }
  else { m with innings2_runs := v }

/-- `setattr(match, wickets_attr, v)`. -/
def setInningsWickets (m : Match) (v : Int) : Match :=
  if m.current_innings = 1 then { m with wickets := v }
  else { m with innings2_wickets := v }

/-- `setattr(match, overs_attr, v)`. -/
def setInningsOvers (m : Match) (v : Overs) : Match :=
  if m.current_innings = 1 then { m with overs := v }
  else { m with innings2_overs := v }

/-- `update_cricket_score` (`src/main.py` lines 547-639), the state part:
sport / live validation, innings dispatch, wide/no-ball vs normal delivery, ball counter with roll-over at 6, wicket increment, history append. -/
def update_cricket_score (u : CricketScoreUpdate) (m : Match) :
    Except ApiError Match :=
  if m.sport ≠ "cricket" then .error .wrongSport
  else if m.status ≠ "LIVE" then .error .notLive
  else
    let current_runs := inningsRuns m
    let current_wickets := inningsWickets m
    let current_overs := inningsOvers m
    let isWideOrNoBall := u.extra_type = some "WD" ∨ u.extra_type = some "NB"
    let entryTotal : Int := if isWideOrNoBall then 1 + u.run else u.run
    let m1 :=
      if isWideOrNoBall then
        setInningsRuns m (current_runs + 1 + u.run)
      else
        let mr := setInningsRuns m (current_runs + u.run)
        let balls := current_overs.balls + 1
        if balls = 6 then setInningsOvers mr ⟨current_overs.whole + 1, 0⟩
        else setInningsOvers mr ⟨current_overs.whole, balls⟩
    let m2 := if u.is_wicket then setInningsWickets m1 (current_wickets + 1) else m1
    let entry : BallEntry :=
      { runs := u.run
        wicket := u.is_wicket
        extra_type := u.extra_type
        innings := m.current_innings
        total_runs := entryTotal
        batsman_out := if u.is_wicket then u.batsman_out else none
        new_batsman := if u.is_wicket then u.new_batsman else none }
    .ok { m2 with ball_history := m2.ball_history ++ [entry] }

/-- A sequence of deliveries fed one by one through
`update_cricket_score`. -/
def applyDeliveries (us : List CricketScoreUpdate) (m : Match) :
    Except ApiError Match :=
  us.foldlM (fun s u => update_cricket_score u s) m

/-- `end_innings` (`src/main.py` lines 642-685): cricket only, rejected
once `current_innings == 2`, otherwise sets the target, flips the innings
and swaps the batting/bowling assignment.  Note: the handler performs no
`status` check. -/
def end_innings (m : Match) : Except ApiError Match :=
  if m.sport ≠ "cricket" then .error .wrongSport
  else if m.current_innings = 2 then .error .invalidState
  else .ok { m with
    target := some (m.total_runs + 1)
    current_innings := 2
    batting_team_id := m.bowling_team_id
    bowling_team_id := m.batting_team_id }

/-- The action dispatch of `update_kabaddi_score` (`src/main.py` lines
717-753), factored out of the validated handler; an unknown action falls
through every branch and changes nothing. -/
def applyKabaddiAction (u : KabaddiScoreUpdate) (m : Match)
    (is_team1 : Bool) : Match :=
  if u.action = "raid" then
    if is_team1 then { m with team1_raid_points := m.team1_raid_points + u.points }
    else { m with team2_raid_points := m.team2_raid_points + u.points }
  else if u.action = "tackle" then
    if is_team1 then { m with team1_tackle_points := m.team1_tackle_points + 1 }
    else { m with team2_tackle_points := m.team2_tackle_points + 1 }
  else if u.action = "super_tackle" then
    if is_team1 then { m with team1_tackle_points := m.team1_tackle_points + 2 }
    else { m with team2_tackle_points := m.team2_tackle_points + 2 }
  else if u.action = "bonus" then
    if is_team1 then { m with team1_bonus_points := m.team1_bonus_points + 1 }
    else { m with team2_bonus_points := m.team2_bonus_points + 1 }
  else if u.action = "self_out" then
    if is_team1 then { m with team2_raid_points := m.team2_raid_points + 1 }
    else { m with team1_raid_points := m.team1_raid_points + 1 }
  else if u.action = "all_out" then
    if is_team1 then { m with team1_all_outs := m.team1_all_outs + 1 }
    else { m with team2_all_outs := m.team2_all_outs + 1 }
  else m

/-- `update_kabaddi_score` (`src/main.py` lines 692-793): sport / live /
team validation, action dispatch, then the response totals of lines
757-759 which are recomputed from the four component counters of the
committed row.  The result triple is (new row, `team1_total`, `team2_total`). -/
def update_kabaddi_score (u : KabaddiScoreUpdate) (m : Match) :
    Except ApiError (Match × Int × Int) :=
  if m.sport ≠ "kabaddi" then .error .wrongSport
  else if m.status ≠ "LIVE" then .error .notLive
  else if ¬(u.team_id = m.team1_id ∨ u.team_id = m.team2_id) then .error .invalidTeam
  else
    let is_team1 := u.team_id = m.team1_id
    let m2 := applyKabaddiAction u m is_team1
    .ok (m2, m2.team1_raid_points + m2.team1_tackle_points + m2.team1_all_outs * 2 + m2.team1_bonus_points, m2.team2_raid_points + m2.team2_tackle_points + m2.team2_all_outs * 2 + m2.team2_bonus_points)

/-- `switch_kabaddi_half` (`src/main.py` lines 796-819): after the sport
check it unconditionally sets `current_half = 2` — no `status` check, no
check of the current half. -/
def switch_kabaddi_half (m : Match) : Except ApiError Match :=
  if m.sport ≠ "kabaddi" then .error .wrongSport
  else .ok { m with current_half := 2 }

/-- `update_volleyball_score` (`src/main.py` lines 826-930): sport / live
validation then the four actions.  `is_team1` is a bare equality with
`team1_id`; there is no membership validation of `team_id`.  An unknown
action changes nothing and still succeeds. -/
def update_volleyball_score (u : VolleyballScoreUpdate) (m : Match) :
    Except ApiError Match :=
  if m.sport ≠ "volleyball" then .error .wrongSport
  else if m.status ≠ "LIVE" then .error .notLive
  else
    let is_team1 := u.team_id = m.team1_id
    if u.action = "point" then
      let m1 :=
        if is_team1 then { m with team1_current_points := m.team1_current_points + 1 }
        else { m with team2_current_points := m.team2_current_points + 1 }
      .ok { m1 with point_history := m1.point_history ++ [⟨if is_team1 then 1 else 2⟩] }
    else if u.action = "undo" then
      match m.point_history.getLast? with
      | none => .ok m
      | some last =>
        let hist := m.point_history.dropLast
        let m1 :=
          if last.team = 1 then
            { m with team1_current_points := max 0 (m.team1_current_points - 1) }
          else
            { m with team2_current_points := max 0 (m.team2_current_points - 1) }
        .ok { m1 with point_history := hist }
    else if u.action = "toggle_serve" then
      .ok { m with serve_team_id :=
        if m.serve_team_id = some m.team1_id then some m.team2_id else some m.team1_id }
    else if u.action = "set_won" then
      let t1_set_points := m.team1_set_points ++ [m.team1_current_points]
      let t2_set_points := m.team2_set_points ++ [m.team2_current_points]
      let m1 :=
        if is_team1 then { m with team1_sets := m.team1_sets + 1 }
        else { m with team2_sets := m.team2_sets + 1 }
      .ok { m1 with
        team1_set_points := t1_set_points
        team2_set_points := t2_set_points
        team1_current_points := 0
        team2_current_points := 0
        current_set := m.current_set + 1
        point_history := [] }
    else .ok m

/-- `end_match` (`src/main.py` lines 937-1037): sets `COMPLETED`, computes
the result string and updates both `Team` rows.  In the cricket branch the
source evaluates `second_innings_score >= match.target`; when `target` is
still `None` (i.e. `end_innings` was never called) Python raises
`TypeError` before anything is committed, embedded as `.error .typeError`.
Result triple: (match row, team1 row, team2 row). -/
def end_match (m : Match) (t1 t2 : Team) :
    Except ApiError (Match × Team × Team) :=
  let mc := { m with status := "COMPLETED" }
  if mc.sport = "cricket" then
    let first_innings_score := mc.total_runs
    let second_innings_score := mc.innings2_runs
    match mc.target with
    | none => .error .typeError
    | some target =>
      if second_innings_score ≥ target then
        let wickets_remaining := 10 - mc.innings2_wickets
        let mr := { mc with
          result := some (t2.name ++ " won by " ++ toString wickets_remaining ++ " wickets") }
        let w1 := { t2 with total_runs_scored := t2.total_runs_scored + second_innings_score }
        let l1 := { t1 with total_runs_scored := t1.total_runs_scored + first_innings_score }
        let w2 := { w1 with wins := w1.wins + 1, matches_played := w1.matches_played + 1, points := w1.points + 2 }
        let l2 := { l1 with losses := l1.losses + 1, matches_played := l1.matches_played + 1 }
        .ok (mr, l2, w2)
      else
        let runs_difference := first_innings_score - second_innings_score
        let mr := { mc with
          result := some (t1.name ++ " won by " ++ toString runs_difference ++ " runs") }
        let w1 := { t1 with total_runs_scored := t1.total_runs_scored + first_innings_score }
        let l1 := { t2 with total_runs_scored := t2.total_runs_scored + second_innings_score }
        let w2 := { w1 with wins := w1.wins + 1, matches_played := w1.matches_played + 1, points := w1.points + 2 }
        let l2 := { l1 with losses := l1.losses + 1, matches_played := l1.matches_played + 1 }
        .ok (mr, w2, l2)
  else if mc.sport = "kabaddi" then
    let team1_total := mc.team1_raid_points + mc.team1_tackle_points +
      mc.team1_all_outs * 2 + mc.team1_bonus_points
    let team2_total := mc.team2_raid_points + mc.team2_tackle_points +
      mc.team2_all_outs * 2 + mc.team2_bonus_points
    let s1 := { t1 with total_raid_points := t1.total_raid_points + mc.team1_raid_points, total_tackle_points := t1.total_tackle_points + mc.team1_tackle_points }
    let s2 := { t2 with total_raid_points := t2.total_raid_points + mc.team2_raid_points, total_tackle_points := t2.total_tackle_points + mc.team2_tackle_points }
    if team1_total > team2_total then
      let mr := { mc with
        result := some (t1.name ++ " won by " ++ toString (team1_total - team2_total) ++ " points") }
      let w2 := { s1 with wins := s1.wins + 1, matches_played := s1.matches_played + 1, points := s1.points + 2 }
      let l2 := { s2 with losses := s2.losses + 1, matches_played := s2.matches_played + 1 }
      .ok (mr, w2, l2)
    else if team2_total > team1_total then
      let mr := { mc with
        result := some (t2.name ++ " won by " ++ toString (team2_total - team1_total) ++ " points") }
      let w2 := { s2 with wins := s2.wins + 1, matches_played := s2.matches_played + 1, points := s2.points + 2 }
      let l2 := { s1 with losses := s1.losses + 1, matches_played := s1.matches_played + 1 }
      .ok (mr, l2, w2)
    else
      let mr := { mc with result := some "Match tied" }
      .ok (mr, s1, s2)
  else if mc.sport = "volleyball" then
    let s1 := { t1 with total_sets_won := t1.total_sets_won + mc.team1_sets }
    let s2 := { t2 with total_sets_won := t2.total_sets_won + mc.team2_sets }
    if mc.ttp_points > 0 then
      if mc.team1_current_points > mc.team2_current_points then
        let mr := { mc with result := some (t1.name ++ " won " ++ toString mc.team1_current_points ++ "-" ++ toString mc.team2_current_points) }
        let w2 := { s1 with wins := s1.wins + 1, matches_played := s1.matches_played + 1, points := s1.points + 2 }
        let l2 := { s2 with losses := s2.losses + 1, matches_played := s2.matches_played + 1 }
        .ok (mr, w2, l2)
      else
        let mr := { mc with result := some (t2.name ++ " won " ++ toString mc.team2_current_points ++ "-" ++ toString mc.team1_current_points) }
        let w2 := { s2 with wins := s2.wins + 1, matches_played := s2.matches_played + 1, points := s2.points + 2 }
        let l2 := { s1 with losses := s1.losses + 1, matches_played := s1.matches_played + 1 }
        .ok (mr, l2, w2)
    else
      if mc.team1_sets > mc.team2_sets then
        let mr := { mc with result := some (t1.name ++ " won " ++ toString mc.team1_sets ++ "-" ++ toString mc.team2_sets) }
        let w2 := { s1 with wins := s1.wins + 1, matches_played := s1.matches_played + 1, points := s1.points + 2 }
        let l2 := { s2 with losses := s2.losses + 1, matches_played := s2.matches_played + 1 }
        .ok (mr, w2, l2)
      else
        let mr := { mc with result := some (t2.name ++ " won " ++ toString mc.team2_sets ++ "-" ++ toString mc.team1_sets) }
        let w2 := { s2 with wins := s2.wins + 1, matches_played := s2.matches_played + 1, points := s2.points + 2 }
        let l2 := { s1 with losses := s1.losses + 1, matches_played := s1.matches_played + 1 }
        .ok (mr, l2, w2)
  else
    .ok (mc, t1, t2)

/-- The kabaddi total formula of the spec:
`raid + tackle + 2 × all_outs + bonus`. -/
def kabaddiTotal (raid tackle all_outs bonus : Int) : Int :=
  raid + tackle + all_outs * 2 + bonus

/-- The kabaddi score summary of the match-list endpoint (`get_matches`,
`src/main.py` lines 285-287): the pair of totals that is formatted as
`"{t1_total} - {t2_total}"`. -/
def matchesListKabaddiTotals (m : Match) : Int × Int :=
  (m.team1_raid_points + m.team1_tackle_points + m.team1_all_outs * 2 + m.team1_bonus_points,
   m.team2_raid_points + m.team2_tackle_points + m.team2_all_outs * 2 + m.team2_bonus_points)

/-- The `"total"` fields of the match-details endpoint
(`get_match_details`, `src/main.py` lines 440 and 447). -/
def matchDetailsKabaddiTotals (m : Match) : Int × Int :=
  (m.team1_raid_points + m.team1_tackle_points + m.team1_all_outs * 2 + m.team1_bonus_points,
   m.team2_raid_points + m.team2_tackle_points + m.team2_all_outs * 2 + m.team2_bonus_points)

/-- The totals `end_match` computes for kabaddi (`src/main.py` lines
976-977) to decide the winner. -/
def endMatchKabaddiTotals (m : Match) : Int × Int :=
  (m.team1_raid_points + m.team1_tackle_points + m.team1_all_outs * 2 + m.team1_bonus_points,
   m.team2_raid_points + m.team2_tackle_points + m.team2_all_outs * 2 + m.team2_bonus_points)

/-- The websocket `ConnectionManager` (`src/main.py` lines 138-164).
Connections are modeled by numeric ids; `active_connections` is the
`dict[int, List[WebSocket]]` as an association list. -/
structure ConnectionManager where
  active_connections : List (Int × List Nat) := []
  deriving DecidableEq

/-- Dictionary lookup `self.active_connections.get(match_id)`. -/
def lookupConns (d : List (Int × List Nat)) (mid : Int) : Option (List Nat) :=
  (d.find? (fun p => p.1 = mid)).map (fun p => p.2)

/-- The send loop of `ConnectionManager.broadcast` (`src/main.py` lines
155-161): each connection is tried in turn; `send` says whether
`send_json` succeeds for that connection.  A failing send is caught by the
`except` clause, which only prints the error — the loop goes on to the
remaining connections and the registry is not touched.  Returns the
manager state after the loop together with the connections that received
the message and the connections whose failure was logged. -/
def sendLoop (send : Nat → Bool) :
    List Nat → ConnectionManager → ConnectionManager × List Nat × List Nat
  | [], mgr => (mgr, [], [])
  | c :: rest, mgr =>
    if send c then
      let r := sendLoop send rest mgr
      (r.1, c :: r.2.1, r.2.2)
    else
      let r := sendLoop send rest mgr
      (r.1, r.2.1, c :: r.2.2)

/-- `ConnectionManager.broadcast` (`src/main.py` lines 155-161). -/
def ConnectionManager.broadcast (mgr : ConnectionManager) (send : Nat → Bool)
    (mid : Int) : ConnectionManager × List Nat × List Nat :=
  match lookupConns mgr.active_connections mid with
  | none => (mgr, [], [])
  | some conns => sendLoop send conns mgr

/-- `ConnectionManager.disconnect` (`src/main.py` lines 148-153): removes
the connection from the match's list; an emptied list is deleted from the
dictionary.  This is the only place a subscriber leaves the registry, and
it is invoked from the websocket endpoint when the subscriber's own
connection closes. -/
def ConnectionManager.disconnect (mgr : ConnectionManager) (ws : Nat)
    (mid : Int) : ConnectionManager :=
  match lookupConns mgr.active_connections mid with
  | none => mgr
  | some conns =>
    let conns' := conns.erase ws
    if conns' = [] then
      ⟨mgr.active_connections.filter (fun p => p.1 ≠ mid)⟩
    else
      ⟨mgr.active_connections.map (fun p => if p.1 = mid then (p.1, conns') else p)⟩

/-- `True` exactly on `.ok`: whether a handler reports success. -/
def exceptSucceeds {α : Type} (r : Except ApiError α) : Bool :=
  match r with
  | .ok _ => true
  | .error _ => false

/-- The kabaddi mutation endpoint followed by its broadcast (`src/main.py`
lines 692-793): the mutation commits first, the broadcast runs after it,
and the handler's response does not inspect the outcome of the individual
sends. -/
def kabaddiMutateAndBroadcast (u : KabaddiScoreUpdate) (m : Match)
    (mgr : ConnectionManager) (send : Nat → Bool) (mid : Int) :
    Except ApiError (Match × Int × Int × ConnectionManager) :=
  match update_kabaddi_score u m with
  | .error e => .error e
  | .ok (m2, a, b) =>
    let r := mgr.broadcast send mid
    .ok (m2, a, b, r.1)

/-- The overs pair that encodes `n` legal balls:
`n div 6` completed overs, `n mod 6` balls in the current over. -/
def oversOfBalls (n : Nat) : Overs :=
  ⟨n / 6, n % 6⟩

/-- One legal delivery applied to an overs pair (the ball-increment branch
of `update_cricket_score`, `src/main.py` lines 591-597). -/
def oversStep (o : Overs) : Overs :=
  if o.balls + 1 = 6 then ⟨o.whole + 1, 0⟩ else ⟨o.whole, o.balls + 1⟩

/-- Projects a handler result to its match row. -/
def exceptOk (r : Except ApiError Match) : Option Match :=
  match r with
  | .ok m => some m
  | .error _ => none

/-- Observation of a cricket handler result:
(innings-1 runs, innings-1 wickets, overs integer part, overs digit). -/
def resTuple (r : Except ApiError Match) : Option (Int × Int × Nat × Nat) :=
  match r with
  | .ok m => some (m.total_runs, m.wickets, m.overs.whole, m.overs.balls)
  | .error _ => none

/-- Status of the match row an `end_match` call returns. -/
def endMatchStatus (r : Except ApiError (Match × Team × Team)) : Option String :=
  match r with
  | .ok t => some t.1.status
  | .error _ => none

/-- A live cricket match fresh out of `start_match` (concrete input for
witnesses). -/
def liveCricket : Match :=
  start_match (create_match "cricket" 1 2 20 20 0 3)

/-- An upcoming (never started) kabaddi match between teams 1 and 2. -/
def upcomingKabaddi : Match :=
  create_match "kabaddi" 1 2 20 20 0 3

/-- A live kabaddi match between teams 1 and 2. -/
def liveKabaddi : Match :=
  start_match (create_match "kabaddi" 1 2 20 20 0 3)

/-- A live volleyball match between teams 1 and 2. -/
def liveVolleyball : Match :=
  start_match (create_match "volleyball" 1 2 20 20 0 3)

/-- A completed cricket match (for the status-regression counterexample). -/
def completedCricket : Match :=
  { liveCricket with status := "COMPLETED" }

/-- Scenario delivery 1 of claim C7: run 4, no extra. -/
def c7d1 : CricketScoreUpdate := { run := 4 }

/-- Scenario delivery 2 of claim C7: run 0, wicket. -/
def c7d2 : CricketScoreUpdate := { run := 0, is_wicket := true }

/-- Scenario delivery 3 of claim C7: run 1, wide. -/
def c7d3 : CricketScoreUpdate := { run := 1, extra_type := some "WD" }

/-- The scenario result of claim C7 on a fresh live cricket match with
`total_overs = 20`. -/
def c7result : Except ApiError Match :=
  applyDeliveries [c7d1, c7d2, c7d3] liveCricket

/-- Registry with two subscribers (ids 7 and 8) on match 1. -/
def c8manager : ConnectionManager := ⟨[(1, [7, 8])]⟩

/-- Send outcome where subscriber 7 fails (disconnected mid-publish) and
everyone else succeeds. -/
def c8send (c : Nat) : Bool := c != 7

/-- Concrete team row. -/
def teamA : Team := { name := "A" }

/-- Concrete team row. -/
def teamB : Team := { name := "B" }

/-- Eight identical legal deliveries (one run, no extra). -/
def c2deliveries : List CricketScoreUpdate := List.replicate 8 { run := 1 }

/-- A wide worth two declared runs. -/
def c3wide : CricketScoreUpdate := { run := 2, extra_type := some "WD" }

/-- A raid worth three points by team 1. -/
def c5raid : KabaddiScoreUpdate := ⟨1, "raid", 3⟩

/-- `liveKabaddi` after `c5raid`. -/
def c5state : Match := { liveKabaddi with team1_raid_points := 3 }

/-- A point scored by team 1. -/
def c6point : VolleyballScoreUpdate := ⟨1, "point"⟩

/-- An undo request (its `team_id` is ignored by the handler). -/
def c6undo : VolleyballScoreUpdate := ⟨2, "undo"⟩

/-- `liveVolleyball` right after `c6point`. -/
def c6mid : Match := { liveVolleyball with team1_current_points := 1, point_history := [⟨1⟩] }

/-- A kabaddi tackle claimed by a team id belonging to neither team. -/
def c9kab : KabaddiScoreUpdate := ⟨99, "tackle", 1⟩

/-- C1 (counterexample): the status gate is not enforced everywhere.  On a
kabaddi match that was never started (`status = "UPCOMING"`) the half
switch succeeds instead of failing with `NotLive`, and `start` on a
COMPLETED match sets it back to LIVE instead of requiring UPCOMING, so
COMPLETED is not terminal. -/
theorem status_gate_counterexample :
    upcomingKabaddi.status ≠ "LIVE" ∧
    exceptSucceeds (switch_kabaddi_half upcomingKabaddi) = true ∧
    completedCricket.status = "COMPLETED" ∧
    (start_match completedCricket).status = "LIVE" :=
  ⟨by decide, rfl, rfl, rfl⟩

/-- C7 (counterexample): the delivery sequence [run 4 no extra],
[run 0 wicket], [run 1 wide] on a fresh live cricket match yields
runs 6, wickets 1, overs 0.2 — not runs 5 and overs 0.1 as claimed: both
non-extra deliveries are legal balls and the wide adds 1 + 1 runs. -/
theorem scenario_counterexample :
    resTuple c7result = some (6, 1, 0, 2) ∧
    resTuple c7result ≠ some (5, 1, 0, 1) :=
  ⟨rfl, by decide⟩

/-- C7 (amended): the scenario of the claim yields runs = 6, wickets = 1
and overs = 0.2 (two legal balls bowled; the wide counts 1 + 1 runs and no
ball). -/
theorem scenario_amended : resTuple c7result = some (6, 1, 0, 2) := rfl

/-- C8 (counterexample): with subscribers 7 and 8 registered on match 1
and subscriber 7 failing during the broadcast, delivery still reaches 8
and the failure of 7 is logged, but 7 is NOT dropped from the registry:
it is still registered after the broadcast. -/
theorem broadcast_keeps_failed_subscriber :
    (c8manager.broadcast c8send 1).2.1 = [8] ∧
    (c8manager.broadcast c8send 1).2.2 = [7] ∧
    lookupConns (c8manager.broadcast c8send 1).1.active_connections 1 = some [7, 8] :=
  ⟨rfl, rfl, rfl⟩

/-- C3: a delivery with extra type wide or no-ball and declared run 0–6 on
a live cricket match adds exactly 1 + declared runs to the current
innings' runs and leaves the overs counter unchanged. -/
theorem wide_noball_delivery (u : CricketScoreUpdate) (m : Match)
    (h1 : m.sport = "cricket") (h2 : m.status = "LIVE")
    (_hr : 0 ≤ u.run ∧ u.run ≤ 6)
    (he : u.extra_type = some "WD" ∨ u.extra_type = some "NB") :
    (exceptOk (update_cricket_score u m)).map inningsRuns =
      some (inningsRuns m + 1 + u.run) ∧
    (exceptOk (update_cricket_score u m)).map inningsOvers = some (inningsOvers m) := by
  by_cases hci : m.current_innings = 1 <;>
    cases hw : u.is_wicket <;>
      simp [update_cricket_score, exceptOk, inningsRuns, inningsOvers,
        setInningsRuns, setInningsWickets, setInningsOvers, h1, h2, he, hci, hw]

/-- Witness for C3: a wide with two declared runs on a fresh live cricket
match. -/
theorem wide_noball_delivery_witness :
    0 ≤ c3wide.run ∧ c3wide.run ≤ 6 ∧
    (exceptOk (update_cricket_score c3wide liveCricket)).map inningsRuns =
      some (inningsRuns liveCricket + 1 + c3wide.run) ∧
    (exceptOk (update_cricket_score c3wide liveCricket)).map inningsOvers =
      some (inningsOvers liveCricket) := by
  have h := wide_noball_delivery c3wide liveCricket rfl rfl (by decide) (Or.inl rfl)
  exact ⟨by decide, by decide, h.1, h.2⟩

/-- C4: on a cricket match with `current_innings ∈ {1, 2}`, `end_innings`
succeeds exactly when `current_innings = 1`; on success it sets the target
to first-innings runs + 1, flips the innings to 2 and swaps the batting
and bowling assignments; on `current_innings = 2`, and in particular right
after a successful call, it fails with `InvalidState`. -/
theorem end_innings_once (m m2 : Match) (hs : m.sport = "cricket")
    (hi : m.current_innings = 1 ∨ m.current_innings = 2) :
    (exceptSucceeds (end_innings m) = true ↔ m.current_innings = 1) ∧
    (m.current_innings = 1 →
      end_innings m = .ok { m with target := some (m.total_runs + 1), current_innings := 2, batting_team_id := m.bowling_team_id, bowling_team_id := m.batting_team_id }) ∧
    (m.current_innings = 2 → end_innings m = .error .invalidState) ∧
    (end_innings m = .ok m2 → end_innings m2 = .error .invalidState) := by
  rcases hi with hi | hi <;>
    simp [end_innings, exceptSucceeds, hs, hi]
  · rintro rfl
    simp [end_innings, hs]

/-- Witness for C4: `end_innings` on a fresh live cricket match succeeds,
and fails with `InvalidState` once the innings is already 2. -/
theorem end_innings_once_witness :
    exceptSucceeds (end_innings liveCricket) = true ∧
    end_innings { liveCricket with current_innings := 2 } = .error .invalidState := by
  have h1 := end_innings_once liveCricket defaultMatch rfl (Or.inl rfl)
  have h2 := end_innings_once { liveCricket with current_innings := 2 } defaultMatch
    rfl (Or.inr rfl)
  exact ⟨h1.1.mpr rfl, h2.2.2.1 rfl⟩

/-- C1 (amended): `start` sets status LIVE from any status (no UPCOMING
precondition, so COMPLETED is not terminal); the cricket, kabaddi and
volleyball score mutations are rejected with `NotLive` whenever
`status ≠ LIVE`; but `end_innings` and the kabaddi half switch perform no
status check and succeed on non-live matches, and `complete` sets
COMPLETED from any status (shown here on kabaddi, where it cannot
raise). -/
theorem status_gate_amended (m : Match) (t1 t2 : Team)
    (cu : CricketScoreUpdate) (ku : KabaddiScoreUpdate) (vu : VolleyballScoreUpdate) :
    ((start_match m).status = "LIVE") ∧
    (m.sport = "cricket" → m.status ≠ "LIVE" → update_cricket_score cu m = .error .notLive) ∧
    (m.sport = "kabaddi" → m.status ≠ "LIVE" → update_kabaddi_score ku m = .error .notLive) ∧
    (m.sport = "volleyball" → m.status ≠ "LIVE" → update_volleyball_score vu m = .error .notLive) ∧
    (m.sport = "cricket" → m.current_innings ≠ 2 → exceptSucceeds (end_innings m) = true) ∧
    (m.sport = "kabaddi" → switch_kabaddi_half m = .ok { m with current_half := 2 }) ∧
    (m.sport = "kabaddi" → endMatchStatus (end_match m t1 t2) = some "COMPLETED") := by
  refine ⟨rfl, ?_, ?_, ?_, ?_, ?_, ?_⟩
  · intro hs hl
    simp [update_cricket_score, hs, hl]
  · intro hs hl
    simp [update_kabaddi_score, hs, hl]
  · intro hs hl
    simp [update_volleyball_score, hs, hl]
  · intro hs hi
    simp [end_innings, exceptSucceeds, hs, hi]
  · intro hs
    simp [switch_kabaddi_half, hs]
  · intro hs
    unfold end_match
    simp [hs]
    split
    · simp [endMatchStatus]
    · split
      · simp [endMatchStatus]
      · simp [endMatchStatus]

/-- Witness for C1 (amended), at concrete matches: a completed cricket
match restarted to LIVE, and an upcoming kabaddi match whose half switch
and completion succeed while its score mutation is rejected. -/
theorem status_gate_amended_witness :
    (start_match completedCricket).status = "LIVE" ∧
    switch_kabaddi_half upcomingKabaddi = .ok { upcomingKabaddi with current_half := 2 } ∧
    update_kabaddi_score ⟨1, "raid", 1⟩ upcomingKabaddi = .error .notLive ∧
    endMatchStatus (end_match upcomingKabaddi teamA teamB) = some "COMPLETED" := by
  have h1 := status_gate_amended completedCricket teamA teamB { run := 0 } ⟨1, "raid", 1⟩ ⟨1, "point"⟩
  have h2 := status_gate_amended upcomingKabaddi teamA teamB { run := 0 } ⟨1, "raid", 1⟩ ⟨1, "point"⟩
  exact ⟨h1.1, h2.2.2.2.2.2.1 rfl, h2.2.2.1 rfl (by decide), h2.2.2.2.2.2.2 rfl⟩

/-- C9: the volleyball scoring operation never validates `team_id`: for
every id different from `team1_id` — including ids of neither team — a
point is credited to team 2 and a `set_won` to team 2's sets, instead of
failing with `InvalidTeam` the way the kabaddi operation does on an id
belonging to neither team. -/
theorem volleyball_team_unvalidated (m km : Match) (tid : Int) (ku : KabaddiScoreUpdate)
    (hv : m.sport = "volleyball") (hl : m.status = "LIVE") (hne : tid ≠ m.team1_id)
    (hk : km.sport = "kabaddi") (hkl : km.status = "LIVE")
    (hk1 : ku.team_id ≠ km.team1_id) (hk2 : ku.team_id ≠ km.team2_id) :
    (exceptOk (update_volleyball_score ⟨tid, "point"⟩ m)).map
        (fun x => (x.team1_current_points, x.team2_current_points)) =
      some (m.team1_current_points, m.team2_current_points + 1) ∧
    (exceptOk (update_volleyball_score ⟨tid, "set_won"⟩ m)).map
        (fun x => (x.team1_sets, x.team2_sets)) =
      some (m.team1_sets, m.team2_sets + 1) ∧
    update_kabaddi_score ku km = .error .invalidTeam := by
  refine ⟨?_, ?_, ?_⟩
  · simp [update_volleyball_score, exceptOk, hv, hl, hne]
  · simp [update_volleyball_score, exceptOk, hv, hl, hne]
  · simp [update_kabaddi_score, hk, hkl, hk1, hk2]

/-- Witness for C9: team id 99 belongs to neither team (ids 1 and 2), yet
the volleyball point is applied to team 2, while kabaddi rejects it. -/
theorem volleyball_team_unvalidated_witness :
    (exceptOk (update_volleyball_score ⟨99, "point"⟩ liveVolleyball)).map
        (fun x => (x.team1_current_points, x.team2_current_points)) =
      some (liveVolleyball.team1_current_points, liveVolleyball.team2_current_points + 1) ∧
    update_kabaddi_score c9kab liveKabaddi = .error .invalidTeam := by
  have h := volleyball_team_unvalidated liveVolleyball liveKabaddi 99 c9kab rfl rfl
    (by decide) rfl rfl (by decide) (by decide)
  exact ⟨h.1, h.2.2⟩

/-- A successful cricket delivery changes neither the sport, status,
innings pointer nor the target of the match row. -/
lemma update_cricket_preserves (u : CricketScoreUpdate) (m m2 : Match)
    (h : update_cricket_score u m = .ok m2) :
    m2.sport = m.sport ∧ m2.status = m.status ∧
    m2.current_innings = m.current_innings ∧ m2.target = m.target := by
  unfold update_cricket_score at h
  by_cases h1 : m.sport = "cricket"
  · by_cases h2 : m.status = "LIVE"
    · by_cases hci : m.current_innings = 1 <;>
        cases hw : u.is_wicket <;>
          by_cases hx : u.extra_type = some "WD" ∨ u.extra_type = some "NB" <;>
            simp [h1, h2, hci, hw, hx, setInningsRuns, setInningsWickets,
              setInningsOvers] at h <;>
              (try split at h) <;> (cases h; simp [hci, h1, h2])
    · simp [h1, h2] at h
  · simp [h1] at h

/-- C10: on a cricket match whose `target` is still null, `end_match`
raises (the `int >= None` comparison) instead of returning a result; a
successful `end_match` requires `target ≠ none`, and `target` is populated
exactly by `end_innings` — it is none at creation and preserved by
deliveries and by `start`. -/
theorem end_match_requires_target (m : Match) (t1 t2 : Team)
    (a b ov hd tp ts : Int) (hs : m.sport = "cricket") :
    (m.target = none → end_match m t1 t2 = .error .typeError) ∧
    (exceptSucceeds (end_match m t1 t2) = true → m.target ≠ none) ∧
    ((create_match "cricket" a b ov hd tp ts).target = none) ∧
    (∀ m2, end_innings m = .ok m2 → m2.target = some (m.total_runs + 1)) ∧
    (∀ u m2, update_cricket_score u m = .ok m2 → m2.target = m.target) ∧
    ((start_match m).target = m.target) := by
  refine ⟨?_, ?_, rfl, ?_, ?_, rfl⟩
  · intro ht
    unfold end_match
    simp [hs, ht]
  · intro hsucc ht
    unfold end_match at hsucc
    simp [hs, ht, exceptSucceeds] at hsucc
  · intro m2 h
    unfold end_innings at h
    by_cases hi : m.current_innings = 2 <;> simp [hs, hi] at h
    cases h
    rfl
  · intro u m2 h
    exact (update_cricket_preserves u m m2 h).2.2.2

/-- Witness for C10: a live cricket match on which `end_innings` was never
called still has `target = none`, and `end_match` raises on it. -/
theorem end_match_requires_target_witness :
    liveCricket.target = none ∧
    end_match liveCricket teamA teamB = .error .typeError ∧
    (create_match "cricket" 1 2 20 20 0 3).target = none := by
  have h := end_match_requires_target liveCricket teamA teamB 1 2 20 20 0 3 rfl
  exact ⟨rfl, h.1 rfl, h.2.2.1⟩

/-- C5: every total the system reports for kabaddi — the match-list score
summary, the match-details totals, the totals `end_match` ranks teams by,
and the totals returned by the mutation response — is recomputed as
`raid + tackle + 2 × all_outs + bonus` from the four component counters of
the row; no independently stored total exists (the `Match` row carries no
total column). -/
theorem kabaddi_totals_recomputed (u : KabaddiScoreUpdate) (m m2 : Match) (a b : Int)
    (h : update_kabaddi_score u m = .ok (m2, a, b)) :
    matchesListKabaddiTotals m2 =
      (kabaddiTotal m2.team1_raid_points m2.team1_tackle_points m2.team1_all_outs m2.team1_bonus_points,
       kabaddiTotal m2.team2_raid_points m2.team2_tackle_points m2.team2_all_outs m2.team2_bonus_points) ∧
    matchDetailsKabaddiTotals m2 = matchesListKabaddiTotals m2 ∧
    endMatchKabaddiTotals m2 = matchesListKabaddiTotals m2 ∧
    a = kabaddiTotal m2.team1_raid_points m2.team1_tackle_points m2.team1_all_outs m2.team1_bonus_points ∧
    b = kabaddiTotal m2.team2_raid_points m2.team2_tackle_points m2.team2_all_outs m2.team2_bonus_points := by
  refine ⟨rfl, rfl, rfl, ?_, ?_⟩ <;>
  · unfold update_kabaddi_score at h
    by_cases h1 : m.sport = "kabaddi" <;>
      by_cases h2 : m.status = "LIVE" <;>
        by_cases h3 : u.team_id = m.team1_id ∨ u.team_id = m.team2_id <;>
          simp [h1, h2, h3] at h
    obtain ⟨hm, ha, hb⟩ := h
    subst hm ha hb
    rfl

/-- Witness for C5: a three-point raid by team 1 on a fresh live kabaddi
match; the response totals match the recomputed component sums. -/
theorem kabaddi_totals_recomputed_witness :
    update_kabaddi_score c5raid liveKabaddi = .ok (c5state, 3, 0) ∧
    3 = kabaddiTotal c5state.team1_raid_points c5state.team1_tackle_points
      c5state.team1_all_outs c5state.team1_bonus_points ∧
    0 = kabaddiTotal c5state.team2_raid_points c5state.team2_tackle_points
      c5state.team2_all_outs c5state.team2_bonus_points := by
  have hok : update_kabaddi_score c5raid liveKabaddi = .ok (c5state, 3, 0) := by rfl
  have h := kabaddi_totals_recomputed c5raid liveKabaddi c5state 3 0 hok
  exact ⟨hok, h.2.2.2.1, h.2.2.2.2⟩

/-- C6: on a live volleyball match with non-negative current points, undo
with an empty point history is a successful no-op returning the state
unchanged, and undo right after a point restores exactly the pre-point
state: the appended history entry is popped and only the recorded team's
current-set points go back down by one. -/
theorem volleyball_undo_spec (m : Match) (tid tid2 tid3 : Int)
    (hv : m.sport = "volleyball") (hl : m.status = "LIVE")
    (hp1 : 0 ≤ m.team1_current_points) (hp2 : 0 ≤ m.team2_current_points) :
    (m.point_history = [] → update_volleyball_score ⟨tid3, "undo"⟩ m = .ok m) ∧
    (∀ m2, update_volleyball_score ⟨tid, "point"⟩ m = .ok m2 →
      update_volleyball_score ⟨tid2, "undo"⟩ m2 = .ok m) := by
  constructor
  · intro hh
    simp [update_volleyball_score, hv, hl, hh]
  · intro m2 h
    by_cases ht : tid = m.team1_id <;>
      simp [update_volleyball_score, hv, hl, ht] at h <;>
        subst h <;>
          cases m <;>
            simp_all [update_volleyball_score, List.getLast?_concat, List.dropLast_concat]

/-- Witness for C6: on a fresh live volleyball match, undo alone is a
no-op, and point-then-undo returns to the initial state. -/
theorem volleyball_undo_spec_witness :
    update_volleyball_score c6undo liveVolleyball = .ok liveVolleyball ∧
    update_volleyball_score c6point liveVolleyball = .ok c6mid ∧
    update_volleyball_score c6undo c6mid = .ok liveVolleyball := by
  have h := volleyball_undo_spec liveVolleyball 1 2 2 rfl rfl (by decide) (by decide)
  exact ⟨h.1 rfl, by rfl, h.2 c6mid (by rfl)⟩

/-- Stepping the overs pair that encodes `k` legal balls encodes
`k + 1`. -/
lemma oversStep_oversOfBalls (k : Nat) :
    oversStep (oversOfBalls k) = oversOfBalls (k + 1) := by
  unfold oversStep oversOfBalls
  by_cases h : k % 6 + 1 = 6 <;> simp [h, Overs.mk.injEq] <;> omega

/-- A delivery without wide/no-ball on a live first-innings cricket match
succeeds, stays live in innings 1, and advances the overs pair by one
legal ball. -/
lemma update_no_extra_step (u : CricketScoreUpdate) (m : Match)
    (h1 : m.sport = "cricket") (h2 : m.status = "LIVE") (h3 : m.current_innings = 1)
    (he : ¬(u.extra_type = some "WD" ∨ u.extra_type = some "NB")) :
    ∃ m2, update_cricket_score u m = .ok m2 ∧ m2.sport = "cricket" ∧
      m2.status = "LIVE" ∧ m2.current_innings = 1 ∧ m2.overs = oversStep m.overs := by
  cases hw : u.is_wicket <;>
    by_cases hb : m.overs.balls + 1 = 6 <;>
      simp [update_cricket_score, oversStep, inningsOvers, setInningsRuns,
        setInningsWickets, setInningsOvers, h1, h2, h3, he, hw, hb]

/-- Folding a list of extra-free deliveries advances the overs pair by the
length of the list. -/
lemma applyDeliveries_overs (us : List CricketScoreUpdate) :
    ∀ (m : Match) (k : Nat), m.sport = "cricket" → m.status = "LIVE" →
      m.current_innings = 1 → m.overs = oversOfBalls k →
      (∀ u ∈ us, ¬(u.extra_type = some "WD" ∨ u.extra_type = some "NB")) →
      (exceptOk (applyDeliveries us m)).map (fun x => x.overs) =
        some (oversOfBalls (k + us.length)) := by
  induction us with
  | nil =>
    intro m k _ _ _ h4 _
    simpa [applyDeliveries, exceptOk, pure, Except.pure] using h4
  | cons u us ih =>
    intro m k h1 h2 h3 h4 h5
    obtain ⟨m2, hok, hs, hl, hi, ho⟩ :=
      update_no_extra_step u m h1 h2 h3 (h5 u (List.mem_cons_self u us))
    have hov : m2.overs = oversOfBalls (k + 1) := by
      rw [ho, h4, oversStep_oversOfBalls]
    have := ih m2 (k + 1) hs hl hi hov
      (fun v hv => h5 v (List.mem_cons_of_mem u hv))
    unfold applyDeliveries at this ⊢
    rw [List.foldlM_cons, hok]
    simpa [Nat.add_assoc, Nat.add_comm, Nat.add_left_comm] using this

/-- C2: after `n` extra-free deliveries on a fresh innings of a live
cricket match the overs counter carries `n div 6` in its integer part and
`n mod 6` in its fractional tenths digit; a sixth legal ball rolls the
integer part and resets the digit to 0. -/
theorem overs_counter_encodes_balls (us : List CricketScoreUpdate) (m : Match)
    (h1 : m.sport = "cricket") (h2 : m.status = "LIVE")
    (h3 : m.current_innings = 1) (h4 : m.overs = ⟨0, 0⟩)
    (h5 : ∀ u ∈ us, ¬(u.extra_type = some "WD" ∨ u.extra_type = some "NB")) :
    (exceptOk (applyDeliveries us m)).map (fun x => x.overs) =
      some ⟨us.length / 6, us.length % 6⟩ ∧
    (∀ o : Overs, o.balls = 5 → oversStep o = ⟨o.whole + 1, 0⟩) := by
  constructor
  · have := applyDeliveries_overs us m 0 h1 h2 h3 (by simpa [oversOfBalls] using h4) h5
    simpa [oversOfBalls] using this
  · intro o hb
    simp [oversStep, hb]

/-- Witness for C2: eight one-run deliveries on a fresh live cricket match
leave the overs counter at 1.2. -/
theorem overs_counter_encodes_balls_witness :
    (exceptOk (applyDeliveries c2deliveries liveCricket)).map (fun x => x.overs) =
      some ⟨1, 2⟩ := by
  have h := overs_counter_encodes_balls c2deliveries liveCricket rfl rfl rfl rfl
    (by decide)
  simpa using h.1

/-- The broadcast send loop delivers to exactly the connections whose send
succeeds, logs exactly the failing ones, and leaves the registry state
untouched. -/
lemma sendLoop_spec (send : Nat → Bool) (conns : List Nat) (mgr : ConnectionManager) :
    sendLoop send conns mgr =
      (mgr, conns.filter (fun c => send c), conns.filter (fun c => !(send c))) := by
  induction conns with
  | nil => rfl
  | cons c rest ih =>
    by_cases h : send c <;> simp [sendLoop, ih, h, List.filter_cons]

/-- C8 (amended): when a subscriber fails during broadcast, delivery still
proceeds to every other subscriber of the match and the failure is logged,
and the mutation's reported outcome is independent of any send failures —
but the failed subscriber is NOT dropped: the registry is unchanged by the
broadcast (a subscriber leaves it only through its own disconnect). -/
theorem broadcast_isolation_amended (mgr : ConnectionManager) (send : Nat → Bool)
    (mid : Int) (conns : List Nat) (u : KabaddiScoreUpdate) (m : Match)
    (h : lookupConns mgr.active_connections mid = some conns) :
    mgr.broadcast send mid =
      (mgr, conns.filter (fun c => send c), conns.filter (fun c => !(send c))) ∧
    exceptSucceeds (kabaddiMutateAndBroadcast u m mgr send mid) =
      exceptSucceeds (update_kabaddi_score u m) := by
  constructor
  · simp [ConnectionManager.broadcast, h, sendLoop_spec]
  · unfold kabaddiMutateAndBroadcast
    cases hr : update_kabaddi_score u m with
    | error e => simp [exceptSucceeds]
    | ok t =>
      obtain ⟨m2, a, b⟩ := t
      simp [exceptSucceeds]

/-- Witness for C8 (amended): subscribers 7 and 8 on match 1, 7 failing:
8 is served, 7 is logged, the registry keeps both, and the kabaddi
mutation's outcome is unaffected. -/
theorem broadcast_isolation_amended_witness :
    c8manager.broadcast c8send 1 = (c8manager, [8], [7]) ∧
    exceptSucceeds (kabaddiMutateAndBroadcast ⟨1, "raid", 1⟩ liveKabaddi c8manager c8send 1) =
      exceptSucceeds (update_kabaddi_score ⟨1, "raid", 1⟩ liveKabaddi) := by
  have h := broadcast_isolation_amended c8manager c8send 1 [7, 8] ⟨1, "raid", 1⟩
    liveKabaddi rfl
  refine ⟨?_, h.2⟩
  rw [h.1]
  rfl
